import Mathlib

/-!
Verification of the build-supervisor pipeline of the hackday-aegis repository.

The definitions below are a shallow embedding of the build endpoint in
src/web-ui/app/api/build-app/route.ts (the locked variant, lines 312-865),
together with AppBuilder.writeFiles from src/lib/app-builder.ts.  Subprocess
results, validator results and HTTP probe responses are passed in explicitly
as oracle inputs; filesystem effects are modelled either as explicit state
records or as event traces.
-/

namespace Aegis

/-- Char-list test that needle is an initial segment of hay. -/
def listStartsWith : List Char → List Char → Bool
  | [], _ => true
  | _ :: _, [] => false
  | a :: as, b :: bs => a == b && listStartsWith as bs

/-- Char-list test that needle occurs contiguously in hay. -/
def listContainsSub (needle : List Char) : List Char → Bool
  | [] => listStartsWith needle []
  | c :: rest => listStartsWith needle (c :: rest) || listContainsSub needle rest

/-- JavaScript String.prototype.includes: true when the needle occurs in the
string (true for the empty needle, as in JavaScript). -/
def jsIncludes (s needle : String) : Bool :=
  listContainsSub needle.toList s.toList

/-- The whitespace characters JavaScript String.prototype.trim strips that
can occur in the single-line marker files of this pipeline. -/
def isJsWhitespace (c : Char) : Bool :=
  c == ' ' || c == '\t' || c == '\n' || c == '\r'

/-- JavaScript String.prototype.trim over the code points of the string. -/
def jsTrim (s : String) : String :=
  String.mk (((s.toList.dropWhile isJsWhitespace).reverse.dropWhile isJsWhitespace).reverse)

/-! ### Lock Manager (route.ts lines 346-362 and the finally block 855-864)

A caller entering the endpoint attempts an atomic create-if-absent open of
the .build.lock marker.  On success it writes its pid and proceeds past the
Lock Manager.  On failure it returns the 409 contention response - but the
return still passes through the try/finally, whose finally block
unconditionally removes .build.lock.  The exit of a running build likewise
removes the marker via the same finally block. -/

structure LockState where
  lockHolder : Option Nat
  runningBuilds : List Nat
deriving DecidableEq

inductive LockEv where
  | enter (p : Nat)
  | exitRun (p : Nat)
deriving DecidableEq

def lockStep (s : LockState) : LockEv → LockState
  | .enter p =>
    match s.lockHolder with
    | none => ⟨some p, p :: s.runningBuilds⟩
    -- busy path: the 409 return passes through the finally block, which
    -- executes rm(lockPath, force) and so deletes the existing marker
    | some _ => ⟨none, s.runningBuilds⟩
  | .exitRun p => ⟨none, s.runningBuilds.erase p⟩

def lockRun (s : LockState) (evs : List LockEv) : LockState :=
  evs.foldl lockStep s

def lockInit : LockState := ⟨none, []⟩

/-! ### Opening segment of POST (route.ts lines 346-373)

fs.promises.open(lockPath, wx-mode) fails with ENOENT when the directory
containing lockPath does not exist, and with EEXIST when the marker already
exists; the catch block treats any failure as contention and returns 409.
Only after a successful open is fs.existsSync(appDir) consulted. -/

def openLockWx (dirExists lockExists : Bool) : Except String Unit :=
  if !dirExists then .error "ENOENT"
  else if lockExists then .error "EEXIST"
  else .ok ()

inductive PostGate where
  | busy409
  | notFound404
  | proceed
deriving DecidableEq

def postLockGate (dirExists lockExists : Bool) : PostGate :=
  match openLockWx dirExists lockExists with
  | .error _ => .busy409
  | .ok () => if !dirExists then .notFound404 else .proceed

/-! ### runNpm and the Compile Gate (route.ts lines 375-400 and 487-491) -/

/-- How a spawned npm subprocess ends: a close event carrying the exit code
(null when killed by a signal), or a spawn error event. -/
inductive ProcEnd where
  | close (code : Option Int)
  | spawnErr (msg : String)
deriving DecidableEq

structure NpmRes where
  code : Int
  output : String
deriving DecidableEq

def runNpm (label : String) (e : ProcEnd) (captured : String) : NpmRes :=
  match e with
  | .close code => ⟨code.getD 1, captured⟩
  | .spawnErr m => ⟨1, captured ++ "\n" ++ label ++ " spawn error: " ++ m⟩

/-- Filesystem / subprocess events emitted by the installer and the gate. -/
inductive FsEv where
  | rm (p : String)
  | npm (args : List String)
  | writeHashFile (v : String)
deriving DecidableEq

def isRmEv : FsEv → Bool
  | .rm _ => true
  | _ => false

structure CompileGateRes where
  ok : Bool
  output : String
deriving DecidableEq

/-- route.ts lines 487-491: the gate runs npm run build and reports ok iff
the exit code is zero; it emits no other filesystem event. -/
def runCompileGate (e : ProcEnd) (captured : String) : CompileGateRes × List FsEv :=
  let res := runNpm "npm run build" e captured
  (⟨res.code == 0, res.output⟩, [FsEv.npm ["run", "build"]])

/-! ### Dependency Installer (route.ts lines 402-485)

The installer state records the contents of package.json, package-lock.json
and the .install.hash marker (none = file absent), and the presence of the
node_modules and .next directories.  Subprocess results are supplied by an
oracle indexed by invocation order. -/

def corruptSignals : List String :=
  ["TAR_ENTRY_ERROR",
   "ENOENT: no such file or directory, open",
   "Cannot find module",
   "@swc/helpers",
   "caniuse-lite/dist/unpacker/agents"]

/-- route.ts lines 402-411. -/
def looksLikeCorruptInstall (output : String) : Bool :=
  corruptSignals.any fun s => jsIncludes output s

structure InstallSt where
  pkg : Option String
  lock : Option String
  hashFile : Option String
  nodeModules : Bool
  nextCache : Bool
deriving DecidableEq

/-- One step of the hash loop h = (h * 31 + data.charCodeAt(i)) >>> 0.
UTF-16 code units are modelled as code points (they agree on the plane-0
strings the marker files contain). -/
def jsHashStep (h : Nat) (c : Char) : Nat :=
  (h * 31 + c.toNat) % 2 ^ 32

def jsHash (s : String) : Nat :=
  s.toList.foldl jsHashStep 0

/-- route.ts lines 423-433: hash over package.json and package-lock.json
contents, a missing file read as the empty string. -/
def computeInstallHash (st : InstallSt) : String :=
  toString (jsHash ((st.pkg.getD "") ++ "\n---\n" ++ (st.lock.getD "")))

/-- route.ts lines 413-421: remove .next, node_modules, package-lock.json and
.install.hash, in that order. -/
def cleanGeneratedAppBuildState (st : InstallSt) : InstallSt × List FsEv :=
  ({ st with nextCache := false, nodeModules := false, lock := none, hashFile := none },
   [FsEv.rm ".next", FsEv.rm "node_modules",
    FsEv.rm "package-lock.json", FsEv.rm ".install.hash"])

def installCmdOf (st : InstallSt) : List String :=
  if st.lock.isSome then ["ci"] else ["install"]

def installLabelOf (st : InstallSt) : String :=
  if st.lock.isSome then "npm ci" else "npm install"

structure InstallRun where
  result : Except String Unit
  events : List FsEv
  st : InstallSt

/-- route.ts lines 435-485.  The oracle gives the result of the n-th npm
subprocess of this invocation. -/
def runNpmInstallWithFallback (st : InstallSt) (proc : Nat → NpmRes) : InstallRun :=
  let desiredHash := computeInstallHash st
  let lastHash := st.hashFile.getD ""
  if jsTrim lastHash == desiredHash && st.nodeModules then
    ⟨.ok (), [], st⟩
  else
    let hasLock := st.lock.isSome
    let installCmd := installCmdOf st
    let label := installLabelOf st
    let first := proc 0
    if first.code == 0 then
      ⟨.ok (), [FsEv.npm installCmd, FsEv.writeHashFile desiredHash],
       { st with hashFile := some desiredHash }⟩
    else if looksLikeCorruptInstall first.output then
      let cleaned := cleanGeneratedAppBuildState st
      let retry := proc 1
      if retry.code == 0 then
        ⟨.ok (),
         FsEv.npm installCmd :: cleaned.2 ++ [FsEv.npm installCmd, FsEv.writeHashFile desiredHash],
         { cleaned.1 with hashFile := some desiredHash }⟩
      else
        ⟨.error (label ++ " failed even after cleaning.\n\n" ++ retry.output),
         FsEv.npm installCmd :: cleaned.2 ++ [FsEv.npm installCmd],
         cleaned.1⟩
    else if !hasLock then
      let second := proc 1
      if second.code == 0 then
        ⟨.ok (),
         [FsEv.npm installCmd, FsEv.npm ["install", "--legacy-peer-deps"],
          FsEv.writeHashFile desiredHash],
         { st with hashFile := some desiredHash }⟩
      else
        let corrupt2 := looksLikeCorruptInstall second.output
        ⟨.error ("npm install failed.\n\n" ++ (if second.output == "" then first.output else second.output)),
         [FsEv.npm installCmd, FsEv.npm ["install", "--legacy-peer-deps"]]
           ++ (if corrupt2 then (cleanGeneratedAppBuildState st).2 else []),
         if corrupt2 then (cleanGeneratedAppBuildState st).1 else st⟩
    else
      ⟨.error (label ++ " failed.\n\n" ++ first.output), [FsEv.npm installCmd], st⟩

/-! ### Generator call and file write-back (route.ts lines 548-558 and
app-builder.ts lines 125-147)

maybeAutoRepair returns false without contacting the Generator when the
prompt or the OPENAI_API_KEY environment variable is absent or empty
(JavaScript truthiness); otherwise it calls generateApp and passes the
returned file mapping straight to AppBuilder.writeFiles, which deletes the
existing target directory and writes exactly the given entries.  The triple
returned below is (repaired flag, resulting target-directory contents,
number of Generator invocations). -/

def jsTruthy : Option String → Bool
  | none => false
  | some s => s != ""

def writeFiles (files : List (String × String))
    (_dir : List (String × String)) : List (String × String) :=
  files

def maybeAutoRepair (prompt apiKey : Option String)
    (genFiles : List (String × String)) (dir : List (String × String)) :
    Bool × List (String × String) × Nat :=
  if !jsTruthy prompt then (false, dir, 0)
  else if !jsTruthy apiKey then (false, dir, 0)
  else (true, writeFiles genFiles dir, 1)

/-! ### Repair Loop (route.ts lines 563-643)

The loop body is driven by a per-iteration oracle: Round gives the result of
findForbiddenNextDocumentUsage (none = no finding) and the exit code and
combined output of the npm run build subprocess for that iteration.  Since
every path through the body ends the iteration (return, break, continue or
fall-through), the for-loop counter equals the iteration number, so the
oracle is indexed by the attempt counter.  canRepair abbreviates prompt and
OPENAI_API_KEY both being truthy; the Generator is invoked exactly when a
repair point is reached with canRepair true.  Reinstalls triggered inside
the loop are assumed to succeed (a throwing reinstall escapes the loop as a
fatal 500, invoking the Generator no further).

The result records the number of Generator invocations, the attempt indices
at which the compile gate ran (in order), and how the loop ended: a terminal
failure response, or control proceeding to the launch stage (launch true
when the gate passed, launch false when the loop fell through after a
corrupt-looking compile failure at the last attempt index).

The fuel argument only pads the recursion: from runWithRepair the loop runs
at most MAX_REPAIR_ATTEMPTS + 1 iterations before the attempt guard stops
it, so with fuel MAX_REPAIR_ATTEMPTS + 2 the fuel-zero fallback (which
returns the same value as the guard) is never reached. -/

def MAX_REPAIR_ATTEMPTS : Nat := 2

structure Round where
  forbidden : Option String
  buildCode : Option Int
  buildOutput : String

inductive LoopResult where
  | terminalValidatorMax (finding : String)
  | terminalValidatorNoRepair (finding : String)
  | terminalCompileMax (output : String)
  | terminalCompileNoRepair (output : String)
  | launch (lastBuildOk : Bool)
deriving DecidableEq

structure LoopRun where
  genCalls : Nat
  compileAt : List Nat
  result : LoopResult
deriving DecidableEq

def repairLoop (canRepair : Bool) (env : Nat → Round) :
    Nat → Nat → Nat → List Nat → LoopRun
  | 0, _, gen, compiles => ⟨gen, compiles.reverse, .launch false⟩
  | fuel + 1, attempt, gen, compiles =>
    if MAX_REPAIR_ATTEMPTS < attempt then ⟨gen, compiles.reverse, .launch false⟩
    else
      match (env attempt).forbidden with
      | some f =>
        if attempt == MAX_REPAIR_ATTEMPTS then
          ⟨gen, compiles.reverse, .terminalValidatorMax f⟩
        else if canRepair then
          repairLoop canRepair env fuel (attempt + 1) (gen + 1) compiles
        else ⟨gen, compiles.reverse, .terminalValidatorNoRepair f⟩
      | none =>
        let code := (env attempt).buildCode.getD 1
        let out := (env attempt).buildOutput
        if code == 0 then ⟨gen, (attempt :: compiles).reverse, .launch true⟩
        else if looksLikeCorruptInstall out then
          repairLoop canRepair env fuel (attempt + 1) gen (attempt :: compiles)
        else if attempt == MAX_REPAIR_ATTEMPTS then
          ⟨gen, (attempt :: compiles).reverse, .terminalCompileMax out⟩
        else if canRepair then
          repairLoop canRepair env fuel (attempt + 1) (gen + 1) (attempt :: compiles)
        else ⟨gen, (attempt :: compiles).reverse, .terminalCompileNoRepair out⟩

def runWithRepair (canRepair : Bool) (env : Nat → Round) : LoopRun :=
  repairLoop canRepair env (MAX_REPAIR_ATTEMPTS + 2) 0 0 []

/-- The terminal failure responses of the loop (route.ts lines 570-578,
585-593, 614-624 and 630-638): error text, the stderr field carrying the
full compile output when present, the suggestion string when present, and
the HTTP status. -/
structure FailureBody where
  error : String
  stderrOut : Option String
  suggestion : Option String
  status : Nat
deriving DecidableEq

def loopFailureBody : LoopResult → Option FailureBody
  | .terminalValidatorMax f =>
    some ⟨"Forbidden Next.js usage detected: " ++ f, none,
      some "Remove any use of next/document or <Html>/<Head>/<Main>/<NextScript>. This project uses App Router; only use lowercase <html>/<body> in app/layout.tsx.",
      500⟩
  | .terminalValidatorNoRepair _ =>
    some ⟨"Forbidden Next.js usage detected and auto-repair was not possible (missing prompt or OPENAI_API_KEY)",
      none,
      some "Provide the prompt to /api/build-app and ensure OPENAI_API_KEY is configured so auto-repair can run.",
      500⟩
  | .terminalCompileMax out =>
    some ⟨"Compile gate failed: next build did not succeed", some out,
      some "The generated app has a compile error. Try regenerating or inspect generated-app/app/page.tsx around the reported line.",
      500⟩
  | .terminalCompileNoRepair out =>
    some ⟨"Compile gate failed and auto-repair was not possible (missing prompt or OPENAI_API_KEY)",
      some out, none, 500⟩
  | .launch _ => none

/-- Oracle for the C3 counterexample: ordinary compile failures at attempts
0 and 1, and a compile failure matching a corruption signature at the final
attempt index 2. -/
def envC3 : Nat → Round := fun n =>
  if n == 2 then ⟨none, some 1, "Module not found: Cannot find module next"⟩
  else ⟨none, some 1, "Type error in app/page.tsx"⟩

/-- Oracle for the C6 counterexample: a compile failure matching a
corruption signature at attempt 0, then a passing compile. -/
def envC6 : Nat → Round := fun n =>
  if n == 0 then ⟨none, some 1, "npm ERR! Cannot find module next"⟩
  else ⟨none, some 0, ""⟩

/-! ### Health Prober (route.ts lines 740-832)

Each iteration of the 30-attempt polling loop observes either a response
with a status code (some s, after the statusCode-or-0 normalisation) or a
connection error / request timeout (none).  The loop counts consecutive 500
responses; reaching MAX_CONSECUTIVE_500 returns the runtime-failure
response; any other observation resets the counter, and a status in
[200, 500) breaks the loop as ready.  After the loop, the code returns the
timeout response only when the stream listeners of the dev-server process
have not already flagged readiness (streamReady). -/

def MAX_CONSECUTIVE_500 : Nat := 5

def HEALTH_ATTEMPTS : Nat := 30

inductive ProbeOutcome where
  | ready
  | runtimeFailure
  | timeout
deriving DecidableEq

/-- statusCode >= 200 && statusCode < 500, false for errors and timeouts. -/
def obsReady : Option Nat → Bool
  | some s => decide (200 ≤ s) && decide (s < 500)
  | none => false

def probeLoop : List (Option Nat) → Nat → ProbeOutcome
  | [], _ => .timeout
  | o :: rest, consecutive500 =>
    if o == some 500 then
      if MAX_CONSECUTIVE_500 ≤ consecutive500 + 1 then .runtimeFailure
      else if obsReady o then .ready
      else probeLoop rest (consecutive500 + 1)
    else
      if obsReady o then .ready
      else probeLoop rest 0

def probeResult (streamReady : Bool) (obs : List (Option Nat)) : ProbeOutcome :=
  match probeLoop (obs.take HEALTH_ATTEMPTS) 0 with
  | .timeout => if streamReady then .ready else .timeout
  | r => r

end Aegis

namespace Aegis

/-- Claim C1: in every reachable state at most one live lock record exists; a
concurrent caller whose marker creation fails is reported busy, does not
proceed and does not alter the existing lock record, which is removed only
when the run that created it exits; hence at most one invocation proceeds
past the Lock Manager at any time.  The code violates this: the rejected
caller reaches the finally block, which unconditionally deletes the live
.build.lock of the first caller, after which a third caller acquires the
lock while the first build is still running.  This theorem evaluates the
embedded lock semantics on that three-caller trace: after enter 1 (acquires),
enter 2 (busy, finally deletes the marker), enter 3 (acquires), two builds
are past the Lock Manager concurrently. -/
theorem C1_lock_invariant_violated :
    (lockRun lockInit [LockEv.enter 1, LockEv.enter 2, LockEv.enter 3]).runningBuilds = [3, 1]
    ∧ 2 ≤ (lockRun lockInit [LockEv.enter 1, LockEv.enter 2, LockEv.enter 3]).runningBuilds.length := by
  decide

/-- Claim C2: the compile gate reports success iff the build subprocess exits
with status zero; for every captured output string (including output that
contains the word success) a non-zero exit status is classified as failure.
The second conjunct instantiates this at exit code 1 with an output that
contains the word success. -/
theorem C2_strict_compile_gate :
    (∀ e captured, ((runCompileGate e captured).1.ok = true) ↔ e = ProcEnd.close (some 0))
    ∧ (runCompileGate (ProcEnd.close (some 1)) "Compiled with success").1.ok = false := by
  constructor
  · intro e captured
    cases e with
    | close code =>
      cases code with
      | none => simp [runCompileGate, runNpm]
      | some v =>
        simp only [runCompileGate, runNpm, Option.getD]
        constructor
        · intro h
          have hv : v = 0 := by
            by_contra hne
            simp [hne] at h
          simp [hv]
        · intro h
          cases h
          simp
    | spawnErr m => simp [runCompileGate, runNpm]
  · decide

/-- Claim C9 counterexample: the claim states that every invocation of the
compile gate first clears the build-output cache and only then runs the
build command.  Evaluating the embedded gate at a concrete invocation shows
that its event trace is exactly one subprocess run with no removal event at
all, so no clearing precedes the build command. -/
theorem C9_counterexample :
    (runCompileGate (ProcEnd.close (some 0)) "build output").2 = [FsEv.npm ["run", "build"]]
    ∧ ((runCompileGate (ProcEnd.close (some 0)) "build output").2.filter isRmEv) = [] := by
  decide

/-- Claim C9 amended: runCompileGate runs the build command to completion and
captures combined output, but performs no clearing of build-output
artifacts; its event trace is exactly the single npm run build invocation
(clearing of the .next cache happens only in the corruption self-heal path,
cleanGeneratedAppBuildState). -/
theorem C9_compile_gate_amended :
    ∀ e captured, (runCompileGate e captured).2 = [FsEv.npm ["run", "build"]] := by
  intro e captured
  rfl

/-- Claim C4: if the stored fingerprint (the trimmed .install.hash content)
equals the fingerprint freshly computed from the current manifest and
lockfile contents, and node_modules is present, then the installer returns
success immediately, emits no event, and in particular performs zero
subprocess invocations. -/
theorem C4_install_skip (st : InstallSt) (proc : Nat → NpmRes)
    (hhash : jsTrim (st.hashFile.getD "") = computeInstallHash st)
    (hnm : st.nodeModules = true) :
    runNpmInstallWithFallback st proc = ⟨.ok (), [], st⟩ := by
  unfold runNpmInstallWithFallback
  simp [hhash, hnm]

/-- Concrete instance of C4_install_skip: an unchanged manifest plus an
intact node_modules directory triggers the immediate-success path. -/
theorem C4_install_skip_witness :
    runNpmInstallWithFallback ⟨some "", none, some "10620455", true, false⟩ (fun _ => ⟨1, ""⟩)
      = ⟨.ok (), [], ⟨some "", none, some "10620455", true, false⟩⟩ :=
  C4_install_skip ⟨some "", none, some "10620455", true, false⟩ (fun _ => ⟨1, ""⟩)
    (by decide) (by decide)

/-- Claim C5: when the install command fails with output matching a
corruption signature, the installer deletes the build-output cache (.next),
node_modules, the lockfile and the cached fingerprint, then retries the same
install command exactly once; when that single retry also fails, an install
error carrying the full captured output of the retry is reported and no
further subprocess runs (the event trace holds exactly two npm invocations
of the same command, with the four removals between them). -/
theorem C5_corruption_self_heal (st : InstallSt) (proc : Nat → NpmRes)
    (hskip : (jsTrim (st.hashFile.getD "") == computeInstallHash st && st.nodeModules) = false)
    (h1 : ((proc 0).code == 0) = false)
    (hcorr : looksLikeCorruptInstall (proc 0).output = true)
    (h2 : ((proc 1).code == 0) = false) :
    runNpmInstallWithFallback st proc =
      ⟨.error (installLabelOf st ++ " failed even after cleaning.\n\n" ++ (proc 1).output),
       [FsEv.npm (installCmdOf st), FsEv.rm ".next", FsEv.rm "node_modules",
        FsEv.rm "package-lock.json", FsEv.rm ".install.hash", FsEv.npm (installCmdOf st)],
       { st with nextCache := false, nodeModules := false, lock := none, hashFile := none }⟩ := by
  unfold runNpmInstallWithFallback
  simp [hskip, h1, hcorr, h2, cleanGeneratedAppBuildState]

/-- Concrete instance of C5_corruption_self_heal: a corrupted npm ci run is
followed by the cleanup and exactly one failing retry of the same command. -/
theorem C5_corruption_self_heal_witness :
    runNpmInstallWithFallback ⟨some "", some "lockdata", none, false, true⟩
        (fun n => if n == 0 then ⟨1, "npm ERR! Cannot find module react"⟩ else ⟨1, "still failing"⟩)
      = ⟨.error (installLabelOf ⟨some "", some "lockdata", none, false, true⟩
            ++ " failed even after cleaning.\n\n" ++ "still failing"),
         [FsEv.npm (installCmdOf ⟨some "", some "lockdata", none, false, true⟩),
          FsEv.rm ".next", FsEv.rm "node_modules",
          FsEv.rm "package-lock.json", FsEv.rm ".install.hash",
          FsEv.npm (installCmdOf ⟨some "", some "lockdata", none, false, true⟩)],
         ⟨some "", none, none, false, false⟩⟩ :=
  C5_corruption_self_heal ⟨some "", some "lockdata", none, false, true⟩
    (fun n => if n == 0 then ⟨1, "npm ERR! Cannot find module react"⟩ else ⟨1, "still failing"⟩)
    (by decide) (by decide) (by decide) (by decide)

/-! Helper lemmas about the repair loop. -/

theorem repairLoop_pastMax (c : Bool) (e : Nat → Round) (fuel attempt gen : Nat)
    (comp : List Nat) (h : MAX_REPAIR_ATTEMPTS < attempt) :
    repairLoop c e fuel attempt gen comp = ⟨gen, comp.reverse, .launch false⟩ := by
  cases fuel with
  | zero => simp [repairLoop]
  | succ n => simp [repairLoop, h]

theorem repairLoop_gen_two (c : Bool) (e : Nat → Round) (fuel gen : Nat) (comp : List Nat) :
    (repairLoop c e (fuel + 1) 2 gen comp).genCalls = gen := by
  have hpast := repairLoop_pastMax c e fuel 3 gen (2 :: comp) (by decide)
  rw [repairLoop]
  cases hf : (e 2).forbidden with
  | some f => simp [MAX_REPAIR_ATTEMPTS, hf]
  | none =>
    by_cases hc : ((e 2).buildCode.getD 1 == 0) = true
    · simp [MAX_REPAIR_ATTEMPTS, hf, hc]
    · by_cases hcorr : looksLikeCorruptInstall (e 2).buildOutput = true
      · simp [MAX_REPAIR_ATTEMPTS, hf, hc, hcorr, hpast]
      · simp [MAX_REPAIR_ATTEMPTS, hf, hc, hcorr]

theorem repairLoop_gen_one (c : Bool) (e : Nat → Round) (fuel gen : Nat) (comp : List Nat) :
    (repairLoop c e (fuel + 2) 1 gen comp).genCalls ≤ gen + 1 := by
  have h2a := repairLoop_gen_two c e fuel (gen + 1) comp
  have h2b := repairLoop_gen_two c e fuel gen (1 :: comp)
  have h2c := repairLoop_gen_two c e fuel (gen + 1) (1 :: comp)
  rw [repairLoop]
  cases hf : (e 1).forbidden with
  | some f =>
    cases c with
    | true => simp [MAX_REPAIR_ATTEMPTS, hf, h2a]
    | false => simp [MAX_REPAIR_ATTEMPTS, hf]
  | none =>
    by_cases hc : ((e 1).buildCode.getD 1 == 0) = true
    · simp [MAX_REPAIR_ATTEMPTS, hf, hc]
    · by_cases hcorr : looksLikeCorruptInstall (e 1).buildOutput = true
      · simp [MAX_REPAIR_ATTEMPTS, hf, hc, hcorr, h2b]
      · cases c with
        | true => simp [MAX_REPAIR_ATTEMPTS, hf, hc, hcorr, h2c]
        | false => simp [MAX_REPAIR_ATTEMPTS, hf, hc, hcorr]

theorem repairLoop_gen_zero (c : Bool) (e : Nat → Round) (fuel gen : Nat) (comp : List Nat) :
    (repairLoop c e (fuel + 3) 0 gen comp).genCalls ≤ gen + 2 := by
  have h1a := repairLoop_gen_one c e fuel (gen + 1) comp
  have h1b := repairLoop_gen_one c e fuel gen (0 :: comp)
  have h1c := repairLoop_gen_one c e fuel (gen + 1) (0 :: comp)
  rw [repairLoop]
  cases hf : (e 0).forbidden with
  | some f =>
    cases c with
    | true =>
      simp [MAX_REPAIR_ATTEMPTS, hf]
      omega
    | false => simp [MAX_REPAIR_ATTEMPTS, hf]
  | none =>
    by_cases hc : ((e 0).buildCode.getD 1 == 0) = true
    · simp [MAX_REPAIR_ATTEMPTS, hf, hc]
    · by_cases hcorr : looksLikeCorruptInstall (e 0).buildOutput = true
      · simp [MAX_REPAIR_ATTEMPTS, hf, hc, hcorr]
        omega
      · cases c with
        | true =>
          simp [MAX_REPAIR_ATTEMPTS, hf, hc, hcorr]
          omega
        | false => simp [MAX_REPAIR_ATTEMPTS, hf, hc, hcorr]

/-- Claim C3 counterexample: the claim asserts that for any sequence of
validator or compile failures, exhausting the repair budget at the final
attempt index returns a terminal failure and never proceeds to the launch
stage.  Evaluating the loop on a trace with ordinary compile failures at
attempts 0 and 1 (consuming both Generator invocations) and a compile
failure matching a corruption signature at the final attempt index 2 shows
the loop falling through to the launch stage with no failure response at
all, despite the last compile having failed. -/
theorem C3_repair_bound_counterexample :
    runWithRepair true envC3 = ⟨2, [0, 1, 2], LoopResult.launch false⟩
    ∧ loopFailureBody (runWithRepair true envC3).result = none := by
  decide

/-- Claim C3 (amended): the repair loop invokes the Generator at most
MAX_REPAIR_ATTEMPTS (= 2) times; when at the final attempt index the
validator reports a finding, or the compile gate fails with output not
matching a corruption signature, the pipeline returns a terminal failure
response carrying the full compile output in its stderr field together with
a suggestion string, and does not proceed to launch.  (A compile failure
matching a corruption signature at the final attempt index instead exits
the loop and proceeds to launch, per the counterexample.) -/
theorem C3_repair_bound_amended :
    (∀ (c : Bool) (e : Nat → Round), (runWithRepair c e).genCalls ≤ MAX_REPAIR_ATTEMPTS)
    ∧ (∀ (c : Bool) (e : Nat → Round) (fuel gen : Nat) (comp : List Nat) (f : String),
        (e MAX_REPAIR_ATTEMPTS).forbidden = some f →
        repairLoop c e (fuel + 1) MAX_REPAIR_ATTEMPTS gen comp
          = ⟨gen, comp.reverse, .terminalValidatorMax f⟩)
    ∧ (∀ (c : Bool) (e : Nat → Round) (fuel gen : Nat) (comp : List Nat),
        (e MAX_REPAIR_ATTEMPTS).forbidden = none →
        ((e MAX_REPAIR_ATTEMPTS).buildCode.getD 1 == 0) = false →
        looksLikeCorruptInstall (e MAX_REPAIR_ATTEMPTS).buildOutput = false →
        repairLoop c e (fuel + 1) MAX_REPAIR_ATTEMPTS gen comp
          = ⟨gen, (MAX_REPAIR_ATTEMPTS :: comp).reverse,
             .terminalCompileMax (e MAX_REPAIR_ATTEMPTS).buildOutput⟩)
    ∧ (∀ out, loopFailureBody (.terminalCompileMax out)
        = some ⟨"Compile gate failed: next build did not succeed", some out,
            some "The generated app has a compile error. Try regenerating or inspect generated-app/app/page.tsx around the reported line.",
            500⟩) := by
  refine ⟨?_, ?_, ?_, ?_⟩
  · intro c e
    exact repairLoop_gen_zero c e 1 0 []
  · intro c e fuel gen comp f hf
    simp only [MAX_REPAIR_ATTEMPTS] at hf ⊢
    rw [repairLoop]
    simp [MAX_REPAIR_ATTEMPTS, hf]
  · intro c e fuel gen comp hf hc hcorr
    simp only [MAX_REPAIR_ATTEMPTS] at hf hc hcorr ⊢
    rw [repairLoop]
    simp [MAX_REPAIR_ATTEMPTS, hf, hc, hcorr]
  · intro out
    rfl

/-- Concrete instance of C3_repair_bound_amended: the Generator-invocation
bound on the C3 trace, and the terminal compile failure at the final
attempt index on a trace whose last compile output matches no corruption
signature. -/
theorem C3_repair_bound_amended_witness :
    (runWithRepair true envC3).genCalls ≤ MAX_REPAIR_ATTEMPTS
    ∧ repairLoop true (fun _ => ⟨none, some 1, "Some type error"⟩) 1 MAX_REPAIR_ATTEMPTS 0 []
        = ⟨0, [MAX_REPAIR_ATTEMPTS], LoopResult.terminalCompileMax "Some type error"⟩ :=
  ⟨C3_repair_bound_amended.1 true envC3,
   C3_repair_bound_amended.2.2.1 true (fun _ => ⟨none, some 1, "Some type error"⟩) 0 0 []
     rfl (by decide) (by decide)⟩

/-- Claim C6 counterexample: the claim asserts that a compile failure
matching a corruption signature is retried at the same attempt index
without advancing the repair-attempt counter.  Evaluating the loop on a
trace with a corrupt-looking compile failure at attempt 0 and a passing
compile afterwards shows the compile gate running at attempt indices 0 and
then 1: the continue statement of the for loop advances the counter, so the
retry runs at the next attempt index, not the same one. -/
theorem C6_env_fault_counterexample :
    runWithRepair false envC6 = ⟨0, [0, 1], LoopResult.launch true⟩ := by
  decide

/-- Claim C6 (amended): when the compile gate fails with output matching a
corruption signature at any attempt index within the budget, the loop
cleans and reinstalls and re-runs the compile at the NEXT attempt index
with the Generator-invocation count unchanged: the environment-fault retry
does not invoke the Generator, but it does advance the attempt counter and
so consumes one of the loop's bounded iterations. -/
theorem C6_env_fault_retry_amended (c : Bool) (e : Nat → Round) (fuel attempt gen : Nat)
    (comp : List Nat)
    (hle : attempt ≤ MAX_REPAIR_ATTEMPTS)
    (hf : (e attempt).forbidden = none)
    (hcode : ((e attempt).buildCode.getD 1 == 0) = false)
    (hcorr : looksLikeCorruptInstall (e attempt).buildOutput = true) :
    repairLoop c e (fuel + 1) attempt gen comp
      = repairLoop c e fuel (attempt + 1) gen (attempt :: comp) := by
  rw [repairLoop]
  simp [Nat.not_lt.mpr hle, hf, hcode, hcorr]

/-- Concrete instance of C6_env_fault_retry_amended on the C6 trace. -/
theorem C6_env_fault_retry_amended_witness :
    repairLoop false envC6 3 0 0 [] = repairLoop false envC6 2 1 0 [0] :=
  C6_env_fault_retry_amended false envC6 2 0 0 [] (by decide) (by decide)
    (by decide) (by decide)

/-- Claim C8 counterexample: the claim asserts that a Generator response
with an empty file mapping is a fatal error for the repair attempt and is
not written to the target directory.  Evaluating the embedded repair step
with prompt and API key configured and an empty file mapping shows the
repair reported successful (true), the Generator invoked once, and the
target directory contents replaced by the empty mapping - the existing
files are destroyed and no error is raised. -/
theorem C8_generator_validation_counterexample :
    maybeAutoRepair (some "build a todo app") (some "sk-test") []
        [("app/page.tsx", "old content")]
      = (true, [], 1) := by
  decide

/-- Claim C8 (amended): the supervisor performs no well-formedness
validation of the Generator response: whenever a prompt and an API key are
configured, the returned file mapping - empty or not - is written as-is
(writeFiles fully replaces the target directory with it) and the repair is
reported successful. -/
theorem C8_generator_validation_amended (prompt apiKey : Option String)
    (genFiles dir : List (String × String))
    (hp : jsTruthy prompt = true) (hk : jsTruthy apiKey = true) :
    maybeAutoRepair prompt apiKey genFiles dir = (true, genFiles, 1)
    ∧ writeFiles genFiles dir = genFiles := by
  constructor
  · simp [maybeAutoRepair, hp, hk, writeFiles]
  · rfl

/-- Concrete instance of C8_generator_validation_amended. -/
theorem C8_generator_validation_amended_witness :
    maybeAutoRepair (some "p") (some "k") [("a.txt", "x")] []
        = (true, [("a.txt", "x")], 1)
    ∧ writeFiles [("a.txt", "x")] ([] : List (String × String)) = [("a.txt", "x")] :=
  C8_generator_validation_amended (some "p") (some "k") [("a.txt", "x")] []
    (by decide) (by decide)

/-! Helper lemmas about the health-probe loop. -/

theorem probeLoop_fiveHundreds (n : Nat) : ∀ (c : Nat) (b : List (Option Nat)),
    MAX_CONSECUTIVE_500 ≤ c + (n + 1) →
    probeLoop (List.replicate (n + 1) (some 500) ++ b) c = .runtimeFailure := by
  induction n with
  | zero =>
    intro c b h
    simp only [MAX_CONSECUTIVE_500] at h
    simp [probeLoop, MAX_CONSECUTIVE_500, h]
  | succ n ih =>
    intro c b h
    rw [List.replicate_succ, List.cons_append, probeLoop]
    by_cases h5 : MAX_CONSECUTIVE_500 ≤ c + 1
    · simp [h5]
    · have hrec := ih (c + 1) b (by simp only [MAX_CONSECUTIVE_500] at *; omega)
      simp [h5, obsReady, hrec]

theorem probeLoop_runtime (a : List (Option Nat)) : ∀ (c : Nat) (b : List (Option Nat)),
    (∀ o ∈ a, obsReady o = false) →
    probeLoop (a ++ (List.replicate 5 (some 500) ++ b)) c = .runtimeFailure := by
  induction a with
  | nil =>
    intro c b _
    have := probeLoop_fiveHundreds 4 c b (by simp [MAX_CONSECUTIVE_500])
    simpa using this
  | cons o a ih =>
    intro c b hready
    have hho : obsReady o = false := hready o (by simp)
    have hrest : ∀ x ∈ a, obsReady x = false := fun x hx => hready x (by simp [hx])
    rw [List.cons_append, probeLoop]
    by_cases ho : (o == some 500) = true
    · by_cases h5 : MAX_CONSECUTIVE_500 ≤ c + 1
      · simp [ho, h5]
      · have hrec := ih (c + 1) b hrest
        simp [ho, h5, hho]
        simpa using hrec
    · have hrec := ih 0 b hrest
      simp [ho, hho]
      simpa using hrec

theorem probeLoop_timeout (l : List (Option Nat)) : ∀ (c : Nat),
    (∀ o ∈ l, obsReady o = false) →
    (∀ a b, l ≠ a ++ (List.replicate 5 (some 500) ++ b)) →
    (∀ b, l ≠ List.replicate (MAX_CONSECUTIVE_500 - c) (some 500) ++ b) →
    probeLoop l c = .timeout := by
  induction l with
  | nil => intro c _ _ _; rfl
  | cons o rest ih =>
    intro c h1 h2 h3
    have hho : obsReady o = false := h1 o (by simp)
    have h1r : ∀ x ∈ rest, obsReady x = false := fun x hx => h1 x (by simp [hx])
    have h2r : ∀ a b, rest ≠ a ++ (List.replicate 5 (some 500) ++ b) := by
      intro a b hab
      exact h2 (o :: a) b (by simp [hab])
    rw [probeLoop]
    by_cases ho : (o == some 500) = true
    · have hoe : o = some 500 := eq_of_beq ho
      by_cases h5 : MAX_CONSECUTIVE_500 ≤ c + 1
      · exfalso
        by_cases hc5 : MAX_CONSECUTIVE_500 ≤ c
        · exact h3 (o :: rest) (by
            have h0 : MAX_CONSECUTIVE_500 - c = 0 := Nat.sub_eq_zero_of_le hc5
            simp [h0])
        · have h1c : MAX_CONSECUTIVE_500 - c = 1 := by
            simp only [MAX_CONSECUTIVE_500] at *
            omega
          exact h3 rest (by simp [h1c, hoe])
      · have h3r : ∀ b, rest ≠ List.replicate (MAX_CONSECUTIVE_500 - (c + 1)) (some 500) ++ b := by
          intro b hb
          have hsplit : MAX_CONSECUTIVE_500 - c = (MAX_CONSECUTIVE_500 - (c + 1)) + 1 := by
            simp only [MAX_CONSECUTIVE_500] at *
            omega
          exact h3 b (by rw [hsplit, List.replicate_succ]; simp [hoe, hb])
        simp [ho, h5, hho, ih (c + 1) h1r h2r h3r]
    · have h3r : ∀ b, rest ≠ List.replicate (MAX_CONSECUTIVE_500 - 0) (some 500) ++ b := by
        intro b hb
        refine h2 [o] b ?_
        simp only [MAX_CONSECUTIVE_500] at hb
        simp [hb]
      simp [ho, hho, ih 0 h1r h2r h3r]

/-- Claim C7: during probing (at most HEALTH_ATTEMPTS = 30 polls), any
status code in [200, 500) ends the loop as ready; five consecutive 500
responses before any ready response yield the terminal runtimeFailure
outcome, which is distinct from timeout; any non-500 observation (other
status, connection error or request timeout) resets the consecutive-error
counter to zero and polling continues; and exhausting all attempts with
neither a ready response nor the 500 threshold (with the stream-side ready
marker unseen) yields timeout. -/
theorem C7_health_classification :
    (∀ (o : Option Nat) (rest : List (Option Nat)) (c : Nat),
        obsReady o = true → probeLoop (o :: rest) c = .ready)
    ∧ (∀ (o : Option Nat) (rest : List (Option Nat)) (c : Nat),
        o ≠ some 500 → obsReady o = false →
        probeLoop (o :: rest) c = probeLoop rest 0)
    ∧ (∀ (sr : Bool) (obs : List (Option Nat)) (a b : List (Option Nat)),
        obs.take HEALTH_ATTEMPTS = a ++ (List.replicate 5 (some 500) ++ b) →
        (∀ o ∈ a, obsReady o = false) →
        probeResult sr obs = .runtimeFailure)
    ∧ (∀ obs : List (Option Nat),
        (∀ o ∈ obs.take HEALTH_ATTEMPTS, obsReady o = false) →
        (∀ a b, obs.take HEALTH_ATTEMPTS ≠ a ++ (List.replicate 5 (some 500) ++ b)) →
        probeResult false obs = .timeout)
    ∧ (∀ (sr : Bool) (obs : List (Option Nat)),
        probeResult sr obs = probeResult sr (obs.take HEALTH_ATTEMPTS))
    ∧ ProbeOutcome.runtimeFailure ≠ ProbeOutcome.timeout := by
  refine ⟨?_, ?_, ?_, ?_, ?_, by simp⟩
  · intro o rest c h
    rw [probeLoop]
    cases o with
    | none => simp [obsReady] at h
    | some v =>
      simp only [obsReady, Bool.and_eq_true, decide_eq_true_eq] at h
      have hne : v ≠ 500 := by omega
      simp [obsReady, hne, h.1, h.2]
  · intro o rest c hne hob
    have ho : (o == some 500) = false := by
      simpa using hne
    rw [probeLoop]
    simp [ho, hob]
  · intro sr obs a b heq ha
    have hrt := probeLoop_runtime a 0 b ha
    have hrt2 : probeLoop (a ++ some 500 :: some 500 :: some 500 :: some 500 :: some 500 :: b) 0
        = ProbeOutcome.runtimeFailure := by simpa using hrt
    simp [probeResult, heq, hrt2]
  · intro obs h1 h2
    have h3 : ∀ b, obs.take HEALTH_ATTEMPTS
        ≠ List.replicate (MAX_CONSECUTIVE_500 - 0) (some 500) ++ b := by
      intro b hb
      refine h2 [] b ?_
      simp only [MAX_CONSECUTIVE_500] at hb
      simpa using hb
    have ht := probeLoop_timeout (obs.take HEALTH_ATTEMPTS) 0 h1 h2 h3
    simp [probeResult, ht]
  · intro sr obs
    simp [probeResult, List.take_take]

/-- Concrete instances of C7_health_classification: a 200 response is ready
at once; five consecutive 500 responses are classified runtimeFailure; a
trace of one connection error and one 502 response (no ready status, no
500 run) is classified timeout. -/
theorem C7_health_classification_witness :
    probeLoop [some 200] 0 = ProbeOutcome.ready
    ∧ probeResult false (List.replicate 5 (some 500)) = ProbeOutcome.runtimeFailure
    ∧ probeResult false [none, some 502] = ProbeOutcome.timeout :=
  ⟨C7_health_classification.1 (some 200) [] 0 (by decide),
   C7_health_classification.2.2.1 false (List.replicate 5 (some 500)) [] []
     (by decide) (by simp),
   C7_health_classification.2.2.2.1 [none, some 502] (by decide)
     (by
       intro a b hab
       have hl := congrArg List.length hab
       simp [HEALTH_ATTEMPTS] at hl
       omega)⟩

/-- Claim C10: if the target directory does not exist when the endpoint is
invoked, the lock-marker open fails with ENOENT inside the missing
directory, the catch treats that failure as contention and returns the 409
busy response, so the 404 directory-not-found branch is unreachable. -/
theorem C10_missing_dir_reports_busy :
    (∀ lockExists, postLockGate false lockExists = PostGate.busy409)
    ∧ (∀ dirExists lockExists, postLockGate dirExists lockExists ≠ PostGate.notFound404) := by
  decide

end Aegis
